import Mathlib

/-!
Verification of the simple-weather-forecast application (src/app.py and
src/config.py) against its natural-language specification.

The Python source is shallowly embedded: every pure helper of app.py becomes
a computable Lean function over exact rationals (Python floats are modelled
by rationals), Python integers become signed integers, fallible operations
return Option, and the side-effecting main flow becomes a pure function from
the HTTP responses it would receive to the list of events (HTTP calls and
user-visible error messages) it emits, in order.
-/

/-! ## Wind direction (src/app.py, get_wind_direction) -/

/-- Python's builtin one-argument round on an exact rational: round half to
even (banker's rounding), as used for `round(deg / 22.5)`. -/
def pyRound (q : ℚ) : ℤ :=
  if q - (⌊q⌋ : ℚ) < 1/2 then ⌊q⌋
  else if 1/2 < q - (⌊q⌋ : ℚ) then ⌊q⌋ + 1
  else if ⌊q⌋ % 2 = 0 then ⌊q⌋ else ⌊q⌋ + 1

/-- Python list indexing: a negative index counts from the end, an index out
of range on either side raises IndexError (modelled as none). -/
def pyGet (l : List String) (i : ℤ) : Option String :=
  if 0 ≤ i then l.get? i.toNat
  else if i.natAbs ≤ l.length then l.get? (l.length - i.natAbs)
  else none

/-- get_wind_direction of src/app.py: the 16-point compass lookup
directions[round(deg / 22.5) % 16]; none models an IndexError. -/
def get_wind_direction (deg : ℚ) : Option String :=
  let directions := ["N", "NNE", "NE", "ENE", "E", "ESE", "SE", "SSE",
                     "S", "SSW", "SW", "WSW", "W", "WNW", "NW", "NNW"]
  let index := (pyRound (deg / 22.5)) % 16
  pyGet directions index

/-! ## Condition-code to emoji / gradient (src/app.py) -/

/-- get_weather_emoji of src/app.py, branch for branch; the icon string is
passed by the caller but never read by the Python body. -/
def get_weather_emoji (weather_id : ℤ) (icon : String) (is_day : Bool) : String :=
  if 200 ≤ weather_id ∧ weather_id ≤ 232 then "⛈️"
  else if 300 ≤ weather_id ∧ weather_id ≤ 321 then "🌦️"
  else if 500 ≤ weather_id ∧ weather_id ≤ 531 then
    if weather_id = 500 then "🌧️"
    else if weather_id = 501 ∨ weather_id = 502 ∨ weather_id = 503 ∨ weather_id = 504 then "🌧️"
    else "🌦️"
  else if 600 ≤ weather_id ∧ weather_id ≤ 622 then "❄️"
  else if 701 ≤ weather_id ∧ weather_id ≤ 781 then
    if weather_id = 701 then "🌫️"
    else if weather_id = 711 then "💨"
    else if weather_id = 721 then "🌫️"
    else if weather_id = 731 ∨ weather_id = 751 ∨ weather_id = 761 then "💨"
    else if weather_id = 741 then "🌫️"
    else if weather_id = 771 then "💨"
    else if weather_id = 781 then "🌪️"
    else "🌫️"
  else if weather_id = 800 then (if is_day then "☀️" else "🌙")
  else if 801 ≤ weather_id ∧ weather_id ≤ 804 then
    if weather_id = 801 then (if is_day then "🌤️" else "🌙")
    else if weather_id = 802 then "⛅"
    else if weather_id = 803 ∨ weather_id = 804 then "☁️"
    else "🌤️"
  else "🌤️"

/-- get_weather_gradient of src/app.py, branch for branch. -/
def get_weather_gradient (weather_id : ℤ) (is_day : Bool) : String :=
  if 200 ≤ weather_id ∧ weather_id ≤ 232 then "linear-gradient(135deg, #2c3e50, #3498db)"
  else if 300 ≤ weather_id ∧ weather_id ≤ 531 then "linear-gradient(135deg, #3498db, #2980b9)"
  else if 600 ≤ weather_id ∧ weather_id ≤ 622 then "linear-gradient(135deg, #ecf0f1, #bdc3c7)"
  else if 701 ≤ weather_id ∧ weather_id ≤ 781 then "linear-gradient(135deg, #95a5a6, #7f8c8d)"
  else if weather_id = 800 then
    if is_day then "linear-gradient(135deg, #f39c12, #e67e22)"
    else "linear-gradient(135deg, #2c3e50, #34495e)"
  else if 801 ≤ weather_id ∧ weather_id ≤ 804 then "linear-gradient(135deg, #bdc3c7, #95a5a6)"
  else "linear-gradient(135deg, #1e90ff, #4dabf7)"

/-- The inclusive condition-code ranges the specification documents for the
icon and gradient mapping (200-232, 300-321, 500-531, 600-622, 701-781,
800, 801-804). Stated from the spec, to compare with the code. -/
def inDocumentedRange (id : ℤ) : Prop :=
  (200 ≤ id ∧ id ≤ 232) ∨ (300 ≤ id ∧ id ≤ 321) ∨ (500 ≤ id ∧ id ≤ 531) ∨
  (600 ≤ id ∧ id ≤ 622) ∨ (701 ≤ id ∧ id ≤ 781) ∨ id = 800 ∨ (801 ≤ id ∧ id ≤ 804)

instance (id : ℤ) : Decidable (inDocumentedRange id) := by
  unfold inDocumentedRange; infer_instance

/-- The ranges the gradient code actually distinguishes from its fallback:
it merges drizzle and rain into one 300-531 block. -/
def inGradientRange (id : ℤ) : Prop :=
  (200 ≤ id ∧ id ≤ 232) ∨ (300 ≤ id ∧ id ≤ 531) ∨ (600 ≤ id ∧ id ≤ 622) ∨
  (701 ≤ id ∧ id ≤ 781) ∨ id = 800 ∨ (801 ≤ id ∧ id ≤ 804)

instance (id : ℤ) : Decidable (inGradientRange id) := by
  unfold inGradientRange; infer_instance

/-! ## Visibility conversion (src/app.py, display_current_weather) -/

/-- The visibility value display_current_weather shows: the upstream meter
value divided by 1000, further multiplied by 0.621371 under imperial units. -/
def displayedVisibility (visibility : ℚ) (units : String) : ℚ :=
  let v := visibility / 1000
  if units = "imperial" then v * 0.621371 else v

/-! ## API-key resolution (src/config.py, get_api_key) -/

/-- get_api_key of src/config.py: the environment variable when set and
non-empty (Python truthiness), else the hardcoded placeholder. -/
def get_api_key (env : Option String) : String :=
  match env with
  | some k => if k = "" then "your_api_key_here" else k
  | none => "your_api_key_here"

/-- The api_key_missing entry of ERROR_MESSAGES in src/config.py. -/
def apiKeyMissingMsg : String :=
  "OpenWeather API key is not configured. Please set OPENWEATHER_API_KEY environment variable."

/-! ## Datetime parsing and formatting (src/app.py, format_datetime)

datetime.strptime with the fixed format "%Y-%m-%d %H:%M:%S" is modelled
after CPython's _strptime: each directive is an ordered-alternative digit
pattern (%Y exactly four digits; %m one of 1[0-2]|0[1-9]|[1-9]; %d one of
3[01]|[12]d|0[1-9]|[1-9]; %H one of 2[0-3]|[0-1]d|d; %M one of [0-5]d|d;
%S one of 6[01]|[0-5]d|d), a whitespace run in the format matches one or
more whitespace characters, literals match exactly, trailing input is a
parse error, and the datetime constructor then rejects year 0, a day past
the month's length and a leap second. -/

/-- Whitespace characters matched by a regex whitespace class on ASCII. -/
def pySpace (c : Char) : Bool :=
  c = ' ' ∨ c = '\t' ∨ c = '\n' ∨ c = '\r' ∨ c = '\x0b' ∨ c = '\x0c'

/-- Value of a decimal digit character, none otherwise. -/
def digitVal (c : Char) : Option ℕ :=
  if c.isDigit then some (c.toNat - 48) else none

/-- Directive %Y: exactly four digits. -/
def parseY : List Char → Option (ℕ × List Char)
  | a :: b :: c :: d :: rest => do
    let va ← digitVal a
    let vb ← digitVal b
    let vc ← digitVal c
    let vd ← digitVal d
    some (1000 * va + 100 * vb + 10 * vc + vd, rest)
  | _ => none

/-- Directive %m: 1[0-2] | 0[1-9] | [1-9], alternatives tried in order. -/
def parseMo : List Char → Option (ℕ × List Char)
  | c1 :: c2 :: rest =>
    match digitVal c1, digitVal c2 with
    | some d1, some d2 =>
      if d1 = 1 ∧ d2 ≤ 2 then some (10 + d2, rest)
      else if d1 = 0 ∧ 1 ≤ d2 then some (d2, rest)
      else if 1 ≤ d1 then some (d1, c2 :: rest)
      else none
    | some d1, none => if 1 ≤ d1 then some (d1, c2 :: rest) else none
    | none, _ => none
  | [c1] =>
    match digitVal c1 with
    | some d1 => if 1 ≤ d1 then some (d1, []) else none
    | none => none
  | [] => none

/-- Directive %d: 3[01] | [12]\d | 0[1-9] | [1-9]. -/
def parseDay : List Char → Option (ℕ × List Char)
  | c1 :: c2 :: rest =>
    match digitVal c1, digitVal c2 with
    | some d1, some d2 =>
      if d1 = 3 ∧ d2 ≤ 1 then some (30 + d2, rest)
      else if d1 = 1 ∨ d1 = 2 then some (10 * d1 + d2, rest)
      else if d1 = 0 ∧ 1 ≤ d2 then some (d2, rest)
      else if 1 ≤ d1 then some (d1, c2 :: rest)
      else none
    | some d1, none => if 1 ≤ d1 then some (d1, c2 :: rest) else none
    | none, _ => none
  | [c1] =>
    match digitVal c1 with
    | some d1 => if 1 ≤ d1 then some (d1, []) else none
    | none => none
  | [] => none

/-- Directive %H: 2[0-3] | [0-1]\d | \d. -/
def parseHour : List Char → Option (ℕ × List Char)
  | c1 :: c2 :: rest =>
    match digitVal c1, digitVal c2 with
    | some d1, some d2 =>
      if d1 = 2 ∧ d2 ≤ 3 then some (20 + d2, rest)
      else if d1 ≤ 1 then some (10 * d1 + d2, rest)
      else some (d1, c2 :: rest)
    | some d1, none => some (d1, c2 :: rest)
    | none, _ => none
  | [c1] =>
    match digitVal c1 with
    | some d1 => some (d1, [])
    | none => none
  | [] => none

/-- Directive %M: [0-5]\d | \d. -/
def parseMin : List Char → Option (ℕ × List Char)
  | c1 :: c2 :: rest =>
    match digitVal c1, digitVal c2 with
    | some d1, some d2 =>
      if d1 ≤ 5 then some (10 * d1 + d2, rest) else some (d1, c2 :: rest)
    | some d1, none => some (d1, c2 :: rest)
    | none, _ => none
  | [c1] =>
    match digitVal c1 with
    | some d1 => some (d1, [])
    | none => none
  | [] => none

/-- Directive %S: 6[01] | [0-5]\d | \d (the regex admits leap seconds; the
datetime constructor rejects them afterwards). -/
def parseSec : List Char → Option (ℕ × List Char)
  | c1 :: c2 :: rest =>
    match digitVal c1, digitVal c2 with
    | some d1, some d2 =>
      if d1 = 6 ∧ d2 ≤ 1 then some (60 + d2, rest)
      else if d1 ≤ 5 then some (10 * d1 + d2, rest)
      else some (d1, c2 :: rest)
    | some d1, none => some (d1, c2 :: rest)
    | none, _ => none
  | [c1] =>
    match digitVal c1 with
    | some d1 => some (d1, [])
    | none => none
  | [] => none

/-- A literal character of the format. -/
def parseLit (ch : Char) : List Char → Option (List Char)
  | c :: rest => if c = ch then some rest else none
  | [] => none

/-- A whitespace run in the format: one or more whitespace characters. -/
def parseSpaces : List Char → Option (List Char)
  | c :: rest => if pySpace c then some (rest.dropWhile pySpace) else none
  | [] => none

/-- The six numeric fields of "%Y-%m-%d %H:%M:%S", or none on any mismatch
or on trailing unconverted input. -/
def strptimeFields (s : String) : Option (ℕ × ℕ × ℕ × ℕ × ℕ × ℕ) := do
  let l0 := s.toList
  let (y, l1) ← parseY l0
  let l2 ← parseLit '-' l1
  let (mo, l3) ← parseMo l2
  let l4 ← parseLit '-' l3
  let (d, l5) ← parseDay l4
  let l6 ← parseSpaces l5
  let (h, l7) ← parseHour l6
  let l8 ← parseLit ':' l7
  let (mi, l9) ← parseMin l8
  let l10 ← parseLit ':' l9
  let (se, l11) ← parseSec l10
  match l11 with
  | [] => some (y, mo, d, h, mi, se)
  | _ :: _ => none

/-- Proleptic Gregorian leap year, as datetime uses. -/
def isLeap (y : ℕ) : Bool := (y % 4 = 0 ∧ y % 100 ≠ 0) ∨ y % 400 = 0

/-- Length of a month. -/
def daysInMonth (y m : ℕ) : ℕ :=
  if m = 2 then (if isLeap y then 29 else 28)
  else if m = 4 ∨ m = 6 ∨ m = 9 ∨ m = 11 then 30
  else 31

/-- A datetime value as datetime.strptime would construct it. -/
structure PyDateTime where
  year : ℕ
  month : ℕ
  day : ℕ
  hour : ℕ
  minute : ℕ
  second : ℕ
deriving DecidableEq

/-- datetime.strptime(s, "%Y-%m-%d %H:%M:%S"): the field regexes, then the
datetime constructor's validation (year at least 1, day within the month,
second at most 59); none models the ValueError paths. -/
def pythonStrptime (s : String) : Option PyDateTime := do
  let (y, mo, d, h, mi, se) ← strptimeFields s
  if 1 ≤ y ∧ d ≤ daysInMonth y mo ∧ se ≤ 59 then
    some ⟨y, mo, d, h, mi, se⟩
  else none

/-- Days before month m in year y. -/
def daysBeforeMonth (y m : ℕ) : ℕ :=
  ((List.range (m - 1)).map (fun i => daysInMonth y (i + 1))).sum

/-- Day number of a date in the proleptic Gregorian calendar, day 1 being
January 1 of year 1 (a Monday). -/
def rataDie (y m d : ℕ) : ℕ :=
  365 * (y - 1) + (y - 1) / 4 - (y - 1) / 100 + (y - 1) / 400 + daysBeforeMonth y m + d

/-- strftime %a: abbreviated weekday name. -/
def weekdayAbbr (dt : PyDateTime) : String :=
  ["Sun", "Mon", "Tue", "Wed", "Thu", "Fri", "Sat"].getD (rataDie dt.year dt.month dt.day % 7) ""

/-- strftime %b: abbreviated month name. -/
def monthAbbr (m : ℕ) : String :=
  ["Jan", "Feb", "Mar", "Apr", "May", "Jun",
   "Jul", "Aug", "Sep", "Oct", "Nov", "Dec"].getD (m - 1) ""

/-- Zero-padding to two digits. -/
def pad2 (n : ℕ) : String := if n < 10 then "0" ++ toString n else toString n

/-- Zero-padding to four digits. -/
def pad4 (n : ℕ) : String :=
  if n < 10 then "000" ++ toString n
  else if n < 100 then "00" ++ toString n
  else if n < 1000 then "0" ++ toString n
  else toString n

/-- dt.strftime("%a, %b %d"). -/
def strfDate (dt : PyDateTime) : String :=
  weekdayAbbr dt ++ ", " ++ monthAbbr dt.month ++ " " ++ pad2 dt.day

/-- dt.strftime("%I:%M %p"): 12-hour clock with AM/PM. -/
def strfTime (dt : PyDateTime) : String :=
  let h12 := if dt.hour % 12 = 0 then 12 else dt.hour % 12
  pad2 h12 ++ ":" ++ pad2 dt.minute ++ " " ++ (if dt.hour < 12 then "AM" else "PM")

/-- dt.strftime("%Y-%m-%d"), the day key display_forecast groups by. -/
def strfYmd (dt : PyDateTime) : String :=
  pad4 dt.year ++ "-" ++ pad2 dt.month ++ "-" ++ pad2 dt.day

/-- format_datetime of src/app.py: strptime under the fixed format, the two
strftime renderings on success, the raw string and an empty time on a
ValueError. -/
def format_datetime (dt_txt : String) : String × String :=
  match pythonStrptime dt_txt with
  | some dt => (strfDate dt, strfTime dt)
  | none => (dt_txt, "")

/-! ## Forecast entries and day grouping (src/app.py, display_forecast) -/

/-- One 3-hour forecast entry, with the fields display_forecast reads (the
wind, clouds and pop fields carry the .get defaults when absent upstream). -/
structure FEntry where
  dt_txt : String
  temp : ℚ
  temp_min : ℚ
  temp_max : ℚ
  description : String
  weather_id : ℤ
  icon : String
  humidity : ℚ
  wind_speed : ℚ
  clouds : ℚ
  pop : ℚ
deriving DecidableEq

/-- The day key display_forecast computes for one entry:
datetime.strptime(entry["dt_txt"], "%Y-%m-%d %H:%M:%S").strftime("%Y-%m-%d");
none models the ValueError the loop would not catch. -/
def dayKeyOf (e : FEntry) : Option String :=
  (pythonStrptime e.dt_txt).map strfYmd

/-- entries_to_show of display_forecast: min(hours // 3, len(list)). -/
def entriesToShow (hours : ℕ) (l : List FEntry) : ℕ :=
  min (hours / 3) l.length

/-- One step of the grouping loop: forecasts_by_day[day_key].append(entry)
on an insertion-ordered dictionary, creating the key at the end when new. -/
def insertGrouped (m : List (String × List FEntry)) (k : String) (e : FEntry) :
    List (String × List FEntry) :=
  match m with
  | [] => [(k, [e])]
  | (k', l) :: rest =>
    if k' = k then (k', l ++ [e]) :: rest else (k', l) :: insertGrouped rest k e

/-- The grouping loop of display_forecast over a list of entries, starting
from an accumulated dictionary; none models the uncaught ValueError when an
entry's dt_txt does not parse. -/
def groupEntries : List FEntry → List (String × List FEntry) →
    Option (List (String × List FEntry))
  | [], acc => some acc
  | e :: rest, acc =>
    match dayKeyOf e with
    | none => none
    | some k => groupEntries rest (insertGrouped acc k e)

/-- Reading one day bucket of the grouped dictionary. -/
def lookupGroup : List (String × List FEntry) → String → List FEntry
  | [], _ => []
  | (k', l) :: rest, k => if k' = k then l else lookupGroup rest k

/-- forecasts_by_day as display_forecast builds it: the first
min(hours // 3, len(list)) entries, grouped by day in insertion order. -/
def displayForecastGroups (l : List FEntry) (hours : ℕ) :
    Option (List (String × List FEntry)) :=
  groupEntries (l.take (entriesToShow hours l)) []

/-- Total number of entries the day groups hold, which is the number of
forecast cards display_forecast renders. -/
def groupSizes (m : List (String × List FEntry)) : ℕ :=
  (m.map (fun p => p.2.length)).sum

/-- A well-formed sample entry: entry i sits at day 1 + i / 8, hour
3 * (i % 8), matching the upstream 3-hour cadence. -/
def mkFEntry (i : ℕ) : FEntry :=
  { dt_txt := "2023-01-0" ++ toString (1 + i / 8) ++ " " ++ toString (3 * (i % 8)) ++ ":00:00"
  , temp := 10, temp_min := 8, temp_max := 12, description := "clear sky"
  , weather_id := 800, icon := "01d", humidity := 50, wind_speed := 3
  , clouds := 0, pop := 0 }

/-- A 40-entry forecast response (the full 5-day upstream window). -/
def sampleForecast40 : List FEntry := (List.range 40).map mkFEntry

/-- A 12-entry forecast response. -/
def sampleForecast12 : List FEntry := (List.range 12).map mkFEntry

/-! ## Geocoding and the main flow (src/app.py) -/

/-- One decoded item of the geocoding response: lat and lon are none when
the key is absent (the KeyError path); name, country and state are read
with .get and so are optional without error. -/
structure GeoItem where
  lat : Option ℚ
  lon : Option ℚ
  name : Option String
  country : Option String
  state : Option String
deriving DecidableEq

/-- What the geocoding HTTP call produced: a requests.RequestException
(network failure, timeout or error status) or a decoded JSON list. -/
inductive GeoResponse where
  | reqError (emsg : String)
  | ok (items : List GeoItem)
deriving DecidableEq

/-- An observable action of the main flow, in emission order: an HTTP call
through one of the three client functions, or a user-visible st.error. -/
inductive Event where
  | callGeocode (q apiKey : String)
  | callCurrent (lat lon : ℚ) (apiKey units : String)
  | callForecast (lat lon : ℚ) (apiKey units : String)
  | showError (msg : String)
deriving DecidableEq

/-- Whether an event is a current-weather or forecast HTTP call. -/
def isWeatherCall : Event → Bool
  | Event.callCurrent _ _ _ _ => true
  | Event.callForecast _ _ _ _ => true
  | _ => false

/-- The not-found message of src/app.py line 585. -/
def notFoundText : String :=
  "🔍 **Location not found.** Please try a different search term."

/-- get_coordinates of src/app.py, given the geocoding response: the
returned 5-tuple and the st.error events it emits. On an exception it
returns all-None; on a non-empty list it returns the first item's fields. -/
def get_coordinates (r : GeoResponse) :
    (Option ℚ × Option ℚ × Option String × Option String × Option String) × List Event :=
  match r with
  | GeoResponse.reqError emsg =>
    ((none, none, none, none, none),
     [Event.showError ("Error fetching location data: " ++ emsg)])
  | GeoResponse.ok [] => ((none, none, none, none, none), [])
  | GeoResponse.ok (item :: _) =>
    match item.lat, item.lon with
    | some la, some lo => ((some la, some lo, item.name, item.country, item.state), [])
    | none, _ =>
      ((none, none, none, none, none),
       [Event.showError "Error parsing location data: 'lat'"])
    | some _, none =>
      ((none, none, none, none, none),
       [Event.showError "Error parsing location data: 'lon'"])

/-- The query branch of the main flow (src/app.py lines 523-597) for a
non-empty location: resolve coordinates, then if and only if both lat and
lon came back, fetch the current weather and the forecast with exactly
those coordinates (curOk and fcOk say whether each fetch returned data);
otherwise show the not-found error. The event list is everything the
branch emits, in order. -/
def runQuery (apiKey location units : String) (geo : GeoResponse)
    (curOk fcOk : Bool) : List Event :=
  let gc := get_coordinates geo
  Event.callGeocode location apiKey :: gc.2 ++
    (match gc.1.1, gc.1.2.1 with
     | some la, some lo =>
       Event.callCurrent la lo apiKey units ::
         (if curOk then []
          else [Event.showError "❌ Could not retrieve current weather data. Please try again."]) ++
         Event.callForecast la lo apiKey units ::
         (if fcOk then []
          else [Event.showError "❌ Could not retrieve forecast data. Please try again."])
     | _, _ => [Event.showError notFoundText])

/-- The 16 compass labels of get_wind_direction, in order, as the spec
lists them. -/
def specCompassLabels : List String :=
  ["N", "NNE", "NE", "ENE", "E", "ESE", "SE", "SSE",
   "S", "SSW", "SW", "WSW", "W", "WNW", "NW", "NNW"]

/-! ## Helper lemmas -/

theorem windIndex_nonneg (deg : ℚ) : 0 ≤ pyRound (deg / 22.5) % 16 :=
  Int.emod_nonneg _ (by norm_num)

theorem windIndex_lt (deg : ℚ) : pyRound (deg / 22.5) % 16 < 16 :=
  Int.emod_lt_of_pos _ (by norm_num)

theorem get_wind_direction_eq (deg : ℚ) :
    get_wind_direction deg = specCompassLabels.get? (pyRound (deg / 22.5) % 16).toNat := by
  have h0 := windIndex_nonneg deg
  simp only [get_wind_direction, pyGet, specCompassLabels, if_pos h0]

theorem specCompassLabels_get?_isSome (n : ℕ) (hn : n < 16) :
    ∃ s, specCompassLabels.get? n = some s ∧ s ∈ specCompassLabels := by
  have hl : n < specCompassLabels.length := by simpa [specCompassLabels] using hn
  exact ⟨specCompassLabels.get ⟨n, hl⟩, List.get?_eq_get hl, List.get_mem _ _ _⟩

theorem pyRound_add_sixteen (q : ℚ) : pyRound (q + 16) = pyRound q + 16 := by
  unfold pyRound
  rw [show ((16 : ℚ)) = (((16 : ℤ)) : ℚ) by norm_num, Int.floor_add_int]
  have hr : q + (((16 : ℤ)) : ℚ) - ((⌊q⌋ + 16 : ℤ) : ℚ) = q - (⌊q⌋ : ℚ) := by
    push_cast; ring
  rw [hr]
  split_ifs <;> omega

theorem insertGrouped_lookup (acc : List (String × List FEntry)) (k : String)
    (e : FEntry) (k' : String) :
    lookupGroup (insertGrouped acc k e) k' =
      if k = k' then lookupGroup acc k' ++ [e] else lookupGroup acc k' := by
  induction acc with
  | nil =>
    simp only [insertGrouped, lookupGroup]
    by_cases h : k = k' <;> simp [h, lookupGroup]
  | cons p rest ih =>
    obtain ⟨k0, l0⟩ := p
    simp only [insertGrouped]
    by_cases h0 : k0 = k
    · subst h0
      simp only [if_pos rfl, lookupGroup]
      by_cases h1 : k0 = k' <;> simp [h1, lookupGroup]
    · simp only [if_neg h0, lookupGroup]
      by_cases h1 : k0 = k'
      · have : ¬ k = k' := fun h => h0 (h1 ▸ h.symm)
        simp [h1, this]
      · simp [h1, ih]

theorem insertGrouped_sizes (acc : List (String × List FEntry)) (k : String) (e : FEntry) :
    groupSizes (insertGrouped acc k e) = groupSizes acc + 1 := by
  induction acc with
  | nil => simp [insertGrouped, groupSizes]
  | cons p rest ih =>
    obtain ⟨k0, l0⟩ := p
    by_cases h0 : k0 = k <;> simp [insertGrouped, h0, groupSizes] <;>
      simp [groupSizes] at ih <;> omega

theorem groupEntries_sizes (l : List FEntry) :
    ∀ acc m, groupEntries l acc = some m → groupSizes m = groupSizes acc + l.length := by
  induction l with
  | nil =>
    intro acc m hm
    simp only [groupEntries, Option.some.injEq] at hm
    simp [← hm]
  | cons e rest ih =>
    intro acc m hm
    simp only [groupEntries] at hm
    cases hk : dayKeyOf e with
    | none => rw [hk] at hm; cases hm
    | some k =>
      rw [hk] at hm
      have := ih (insertGrouped acc k e) m hm
      rw [this, insertGrouped_sizes]
      simp; omega

theorem groupEntries_lookup (l : List FEntry) :
    ∀ acc m, groupEntries l acc = some m → ∀ k : String,
      lookupGroup m k = lookupGroup acc k ++ l.filter (fun e => dayKeyOf e == some k) := by
  induction l with
  | nil =>
    intro acc m hm k
    simp only [groupEntries, Option.some.injEq] at hm
    simp [← hm]
  | cons e rest ih =>
    intro acc m hm k
    simp only [groupEntries] at hm
    cases hk : dayKeyOf e with
    | none => rw [hk] at hm; cases hm
    | some ke =>
      rw [hk] at hm
      have h1 := ih (insertGrouped acc ke e) m hm k
      rw [h1, insertGrouped_lookup]
      by_cases hke : ke = k
      · subst hke
        simp [List.filter_cons, hk]
      · simp [List.filter_cons, hk, hke]

theorem fetchErrMsg_head (emsg : String) :
    ("Error fetching location data: " ++ emsg).data.head? = some 'E' := by
  cases emsg with
  | mk l => rfl

theorem fetchErrMsg_ne_apiKeyMissing (emsg : String) :
    "Error fetching location data: " ++ emsg ≠ apiKeyMissingMsg := by
  intro h
  have h1 := congrArg List.head? (congrArg String.data h)
  rw [fetchErrMsg_head] at h1
  have h2 : apiKeyMissingMsg.data.head? = some 'O' := rfl
  rw [h2] at h1
  cases h1

/-! ## The claims -/

/-- C3: for every requested period hours and every forecast list, the number
of entries display_forecast shows, summed over the day groups, is
min(hours // 3, available_entries); the hypothesis says the grouping loop
ran without an uncaught ValueError, that is, every shown dt_txt parses. -/
theorem display_forecast_count (hours : ℕ) (l : List FEntry)
    (m : List (String × List FEntry)) (hm : displayForecastGroups l hours = some m) :
    groupSizes m = min (hours / 3) l.length := by
  have h := groupEntries_sizes _ _ _ hm
  rw [h]
  simp [groupSizes, entriesToShow, List.length_take]

/-- C3 witness: a 40-entry response at hours=24 shows 8 entries, and a
12-entry response at hours=120 shows all 12. -/
theorem display_forecast_count_witness :
    (∃ m, displayForecastGroups sampleForecast40 24 = some m ∧ groupSizes m = 8) ∧
    (∃ m, displayForecastGroups sampleForecast12 120 = some m ∧ groupSizes m = 12) := by
  constructor
  · have hs : (displayForecastGroups sampleForecast40 24).isSome = true := by decide
    obtain ⟨m, hm⟩ := Option.isSome_iff_exists.mp hs
    refine ⟨m, hm, ?_⟩
    rw [display_forecast_count 24 sampleForecast40 m hm]
    decide
  · have hs : (displayForecastGroups sampleForecast12 120).isSome = true := by decide
    obtain ⟨m, hm⟩ := Option.isSome_iff_exists.mp hs
    refine ⟨m, hm, ?_⟩
    rw [display_forecast_count 120 sampleForecast12 m hm]
    decide

/-- C6: the day grouping of display_forecast partitions the truncated entry
list into buckets keyed by the calendar date of each entry's dt_txt, and
each bucket holds exactly the truncated entries bearing that date, in their
source order (it equals a filter of the source sequence). -/
theorem display_forecast_grouping (hours : ℕ) (l : List FEntry)
    (m : List (String × List FEntry)) (hm : displayForecastGroups l hours = some m)
    (k : String) :
    lookupGroup m k =
      (l.take (entriesToShow hours l)).filter (fun e => dayKeyOf e == some k) := by
  have h := groupEntries_lookup _ _ _ hm k
  simpa [lookupGroup] using h

/-- C6 witness: the grouping of the 40-entry sample at hours=24, read at day
2023-01-01, is the filter of its truncation to 8 entries. -/
theorem display_forecast_grouping_witness :
    ∃ m, displayForecastGroups sampleForecast40 24 = some m ∧
      lookupGroup m "2023-01-01" =
        (sampleForecast40.take (entriesToShow 24 sampleForecast40)).filter
          (fun e => dayKeyOf e == some "2023-01-01") ∧
      (lookupGroup m "2023-01-01").length = 8 := by
  have hs : (displayForecastGroups sampleForecast40 24).isSome = true := by decide
  obtain ⟨m, hm⟩ := Option.isSome_iff_exists.mp hs
  have h := display_forecast_grouping 24 sampleForecast40 m hm "2023-01-01"
  refine ⟨m, hm, h, ?_⟩
  rw [h]
  decide

/-- C7: format_datetime is total; when the input parses under the fixed
format "%Y-%m-%d %H:%M:%S" it returns the two strftime renderings, and on
any parse failure it returns the original string with an empty time. -/
theorem format_datetime_spec (s : String) :
    (∀ dt, pythonStrptime s = some dt → format_datetime s = (strfDate dt, strfTime dt)) ∧
    (pythonStrptime s = none → format_datetime s = (s, "")) := by
  constructor
  · intro dt h
    simp [format_datetime, h]
  · intro h
    simp [format_datetime, h]

/-- C8: the displayed visibility is meters / 1000 under metric units, and
that kilometer value times 0.621371 under imperial units, exactly over ℚ. -/
theorem visibility_conversion (v : ℚ) :
    displayedVisibility v "metric" = v / 1000 ∧
    displayedVisibility v "imperial" = (v / 1000) * 0.621371 := by
  constructor <;> simp [displayedVisibility]

/-- C4: get_wind_direction returns the element at index
round(deg / 22.5) mod 16 of the fixed 16-label compass list starting at N,
with round Python's banker's rounding and mod Python's nonnegative
remainder. -/
theorem wind_direction_formula (deg : ℚ) :
    ∃ s, get_wind_direction deg = some s ∧
      specCompassLabels.get? (pyRound (deg / 22.5) % 16).toNat = some s := by
  have hb := windIndex_lt deg
  have h0 := windIndex_nonneg deg
  have hn : (pyRound (deg / 22.5) % 16).toNat < 16 := by omega
  obtain ⟨s, hs, _⟩ := specCompassLabels_get?_isSome _ hn
  exact ⟨s, (get_wind_direction_eq deg).trans hs, hs⟩

theorem pyRound_intCast (n : ℤ) : pyRound ((n : ℚ)) = n := by
  unfold pyRound
  rw [Int.floor_intCast, sub_self]
  rw [if_pos (by norm_num : (0 : ℚ) < 1/2)]

/-- C5: the wind-direction mapping has period 360, and hits N at 0 degrees
and S at 180 degrees. -/
theorem wind_direction_periodic (deg : ℚ) :
    get_wind_direction (deg + 360) = get_wind_direction deg ∧
    get_wind_direction 0 = some "N" ∧ get_wind_direction 180 = some "S" := by
  have hz : get_wind_direction 0 = some "N" := by
    rw [get_wind_direction_eq,
      show ((0 : ℚ) / 22.5) = (((0 : ℤ)) : ℚ) by norm_num, pyRound_intCast]
    rfl
  have hs : get_wind_direction 180 = some "S" := by
    rw [get_wind_direction_eq,
      show ((180 : ℚ) / 22.5) = (((8 : ℤ)) : ℚ) by norm_num, pyRound_intCast]
    rfl
  refine ⟨?_, hz, hs⟩
  have hdiv : (deg + 360) / 22.5 = deg / 22.5 + 16 := by
    rw [add_div]
    norm_num
  have hidx : pyRound ((deg + 360) / 22.5) % 16 = pyRound (deg / 22.5) % 16 := by
    rw [hdiv, pyRound_add_sixteen]
    omega
  rw [get_wind_direction_eq, get_wind_direction_eq, hidx]

/-- C10: for every rational degree value, including negative values and
values of 360 or more, the index round(deg / 22.5) mod 16 lies in 0..15,
so the list lookup is in bounds and get_wind_direction totally returns one
of the 16 compass labels. -/
theorem wind_direction_total (deg : ℚ) :
    0 ≤ pyRound (deg / 22.5) % 16 ∧ pyRound (deg / 22.5) % 16 < 16 ∧
    ∃ s, get_wind_direction deg = some s ∧ s ∈ specCompassLabels := by
  refine ⟨windIndex_nonneg deg, windIndex_lt deg, ?_⟩
  have hb := windIndex_lt deg
  have h0 := windIndex_nonneg deg
  have hn : (pyRound (deg / 22.5) % 16).toNat < 16 := by omega
  obtain ⟨s, hs, hmem⟩ := specCompassLabels_get?_isSome _ hn
  exact ⟨s, (get_wind_direction_eq deg).trans hs, hmem⟩

/-- C1 counterexample: code 400 lies outside every documented range, yet the
gradient mapping returns the rain gradient rather than its documented
fallback; and code 801 with the day flag lies inside a documented range,
yet the icon mapping returns exactly its documented fallback glyph. -/
theorem weather_mapping_counterexample :
    ¬ inDocumentedRange 400 ∧
    get_weather_gradient 400 true = "linear-gradient(135deg, #3498db, #2980b9)" ∧
    get_weather_gradient 400 true ≠ "linear-gradient(135deg, #1e90ff, #4dabf7)" ∧
    inDocumentedRange 801 ∧
    get_weather_emoji 801 "01d" true = "🌤️" := by
  refine ⟨by decide, by decide, by decide, by decide, by decide⟩

set_option maxHeartbeats 2000000 in
/-- C1 (amended): the icon mapping returns a non-default glyph exactly on
the documented ranges except code 801 by day, where it returns the default
glyph; the gradient mapping returns a non-default value exactly on the
documented ranges with drizzle and rain merged into a single 300-531 block;
outside those sets each mapping returns exactly its fallback. -/
theorem weather_mapping_amended (id : ℤ) (icon : String) (day : Bool) :
    (get_weather_emoji id icon day ≠ "🌤️" ↔
      (inDocumentedRange id ∧ ¬(id = 801 ∧ day = true))) ∧
    (get_weather_gradient id day ≠ "linear-gradient(135deg, #1e90ff, #4dabf7)" ↔
      inGradientRange id) := by
  constructor
  · unfold get_weather_emoji inDocumentedRange
    split_ifs <;> simp_all <;> omega
  · unfold get_weather_gradient inGradientRange
    split_ifs <;> simp_all

/-- C2 counterexample: with the environment variable unset, get_api_key
yields the placeholder, yet the query flow's very first event is already
the geocode HTTP call (carrying the placeholder key), and the configuration
error message of config.py is reported nowhere in the flow. -/
theorem api_key_config_counterexample :
    get_api_key none = "your_api_key_here" ∧
    (runQuery (get_api_key none) "Paris" "metric" (GeoResponse.ok []) true true).head? =
      some (Event.callGeocode "Paris" "your_api_key_here") ∧
    Event.showError apiKeyMissingMsg ∉
      runQuery (get_api_key none) "Paris" "metric" (GeoResponse.ok []) true true := by
  refine ⟨rfl, rfl, by decide⟩

/-- C2 (amended): the code performs no API-key configuration check at all:
for every environment value (unset or placeholder included), the query
flow's first event is the geocode HTTP call with whatever get_api_key
returned, and the api_key_missing message is never shown on any path. -/
theorem api_key_unchecked (env : Option String) (location units : String)
    (geo : GeoResponse) (curOk fcOk : Bool) :
    get_api_key none = "your_api_key_here" ∧
    (runQuery (get_api_key env) location units geo curOk fcOk).head? =
      some (Event.callGeocode location (get_api_key env)) ∧
    Event.showError apiKeyMissingMsg ∉
      runQuery (get_api_key env) location units geo curOk fcOk := by
  refine ⟨rfl, rfl, ?_⟩
  rcases geo with emsg | items
  · intro hmem
    simp [runQuery, get_coordinates, notFoundText, apiKeyMissingMsg] at hmem
    exact fetchErrMsg_ne_apiKeyMissing emsg hmem.symm
  · rcases items with _ | ⟨item, rest⟩
    · intro hmem
      simp [runQuery, get_coordinates, notFoundText, apiKeyMissingMsg] at hmem
    · cases curOk <;> cases fcOk <;>
        rcases hla : item.lat with _ | la <;> rcases hlo : item.lon with _ | lo <;>
        intro hmem <;>
        simp [runQuery, get_coordinates, hla, hlo, apiKeyMissingMsg, notFoundText] at hmem

/-- C9: on a network/timeout failure, an empty geocode list, or a malformed
first item (missing lat or lon key), get_coordinates returns the all-None
not-found signal, the flow issues no current-weather or forecast call, and
the not-found message is shown; on a non-empty well-formed result the first
match's coordinates and names are returned and both weather calls carry
exactly those coordinates. -/
theorem geocode_flow_spec (apiKey location units emsg : String)
    (item : GeoItem) (rest : List GeoItem) (curOk fcOk : Bool) :
    ((get_coordinates (GeoResponse.reqError emsg)).1 = (none, none, none, none, none) ∧
     (get_coordinates (GeoResponse.ok [])).1 = (none, none, none, none, none) ∧
     (item.lat = none ∨ item.lon = none →
       (get_coordinates (GeoResponse.ok (item :: rest))).1 =
         (none, none, none, none, none))) ∧
    ((runQuery apiKey location units (GeoResponse.reqError emsg) curOk fcOk).all
       (fun e => !isWeatherCall e) = true ∧
     Event.showError notFoundText ∈
       runQuery apiKey location units (GeoResponse.reqError emsg) curOk fcOk) ∧
    ((runQuery apiKey location units (GeoResponse.ok []) curOk fcOk).all
       (fun e => !isWeatherCall e) = true ∧
     Event.showError notFoundText ∈
       runQuery apiKey location units (GeoResponse.ok []) curOk fcOk) ∧
    (item.lat = none ∨ item.lon = none →
      (runQuery apiKey location units (GeoResponse.ok (item :: rest)) curOk fcOk).all
        (fun e => !isWeatherCall e) = true ∧
      Event.showError notFoundText ∈
        runQuery apiKey location units (GeoResponse.ok (item :: rest)) curOk fcOk) ∧
    (∀ la lo, item.lat = some la → item.lon = some lo →
      (get_coordinates (GeoResponse.ok (item :: rest))).1 =
        (some la, some lo, item.name, item.country, item.state) ∧
      Event.callCurrent la lo apiKey units ∈
        runQuery apiKey location units (GeoResponse.ok (item :: rest)) curOk fcOk ∧
      Event.callForecast la lo apiKey units ∈
        runQuery apiKey location units (GeoResponse.ok (item :: rest)) curOk fcOk) := by
  refine ⟨⟨rfl, rfl, ?_⟩, ⟨rfl, ?_⟩, ⟨rfl, ?_⟩, ?_, ?_⟩
  · intro h
    rcases hla : item.lat with _ | la
    · simp [get_coordinates, hla]
    · rcases hlo : item.lon with _ | lo
      · simp [get_coordinates, hla, hlo]
      · rcases h with h | h
        · rw [hla] at h; cases h
        · rw [hlo] at h; cases h
  · simp [runQuery, get_coordinates]
  · simp [runQuery, get_coordinates]
  · intro h
    rcases hla : item.lat with _ | la
    · constructor
      · simp [runQuery, get_coordinates, hla, isWeatherCall]
      · simp [runQuery, get_coordinates, hla]
    · rcases hlo : item.lon with _ | lo
      · constructor
        · simp [runQuery, get_coordinates, hla, hlo, isWeatherCall]
        · simp [runQuery, get_coordinates, hla, hlo]
      · rcases h with h | h
        · rw [hla] at h; cases h
        · rw [hlo] at h; cases h
  · intro la lo hla hlo
    refine ⟨by simp [get_coordinates, hla, hlo], ?_, ?_⟩
    · cases curOk <;> cases fcOk <;> simp [runQuery, get_coordinates, hla, hlo]
    · cases curOk <;> cases fcOk <;> simp [runQuery, get_coordinates, hla, hlo]
